import Mathlib

/-!
# Verification of super-gradients detection components

Shallow embedding of the relevant parts of the repository:

* `src/super_gradients/training/models/detection_models/deci_yolo/dfl_heads.py`
  (`NDFLHeads.forward_eval`, `NDFLHeads.cache_anchors`, `NDFLHeads._init_weights`),
* `src/super_gradients/training/pipelines/pipelines.py`
  (`eval_mode`, `Pipeline.__init__`, `Pipeline._run`, `DetectionPipeline`),
* `src/super_gradients/training/models/kd_modules/kd_module.py` (`KDModule`).

Tensor entries are modelled as rationals; the real exponential used by
`softmax` and `sigmoid` is an abstract parameter `e : ℚ → ℚ`, which keeps
every definition computable while preserving the algebraic structure the
claims are about.
-/

namespace SuperGradients

/-! ## DFL head: distribution-focal-loss decoding (dfl_heads.py) -/

/-- `torch.linspace(a, b, n)`: `n` evenly spaced values from `a` to `b`
(row-major step `(b - a) / (n - 1)`; for `n = 1` torch returns `[a]`). -/
def linspace (a b : ℚ) (n : Nat) : Fin n → ℚ :=
  fun i => if n ≤ 1 then a else a + (i.val : ℚ) * (b - a) / ((n : ℚ) - 1)

/-- The fixed, non-trainable weights of the `proj_conv` buffer registered in
`NDFLHeads.__init__`: `torch.linspace(0, reg_max, reg_max + 1)` reshaped to
`[1, reg_max + 1, 1, 1]`.  Only the `reg_max + 1` channel axis is non-trivial. -/
def projConv (regMax : Nat) : Fin (regMax + 1) → ℚ :=
  linspace 0 (regMax : ℚ) (regMax + 1)

/-- The linspace weights of `proj_conv` are exactly the bin indices `0, 1, ..., reg_max`. -/
lemma projConv_eq_idx (R : Nat) (j : Fin (R + 1)) : projConv R j = (j.val : ℚ) := by
  unfold projConv linspace
  rcases Nat.eq_zero_or_pos R with hR | hR
  · subst hR
    have hj : j.val = 0 := by omega
    simp [hj]
  · have h1 : ¬ (R + 1 ≤ 1) := by omega
    have hRQ : (R : ℚ) ≠ 0 := Nat.cast_ne_zero.mpr (by omega)
    simp only [if_neg h1]
    push_cast
    field_simp

/-- Channel index of bin `j` of side `k` inside the `4 * (reg_max + 1)` regression
channels, as produced by the row-major `reshape([-1, 4, reg_max + 1, h * w])`. -/
def sideChannel (R : Nat) (k : Fin 4) (j : Fin (R + 1)) : Fin (4 * (R + 1)) :=
  ⟨k.val * (R + 1) + j.val, by
    calc k.val * (R + 1) + j.val
        < k.val * (R + 1) + (R + 1) := Nat.add_lt_add_left j.isLt _
      _ = (k.val + 1) * (R + 1) := by ring
      _ ≤ 4 * (R + 1) := Nat.mul_le_mul_right _ k.isLt⟩

/-- Row-major flattening of the spatial axes `H × W` into `H * W`
(`tensor.flatten(2)` / the `height_mul_width` axis of `forward_eval`). -/
def flatSpatial (H W : Nat) (h : Fin H) (w : Fin W) : Fin (H * W) :=
  ⟨h.val * W + w.val, by
    calc h.val * W + w.val
        < h.val * W + W := Nat.add_lt_add_left w.isLt _
      _ = (h.val + 1) * W := by ring
      _ ≤ H * W := Nat.mul_le_mul_right _ h.isLt⟩

/-- Row coordinate recovered from a flattened spatial index (row-major). -/
def spatialRow (H W : Nat) (s : Fin (H * W)) : Fin H :=
  ⟨s.val / W, by
    have hW : 0 < W := by
      rcases Nat.eq_zero_or_pos W with h0 | h0
      · exact absurd s.isLt (by simp [h0])
      · exact h0
    exact (Nat.div_lt_iff_lt_mul hW).mpr s.isLt⟩

/-- Column coordinate recovered from a flattened spatial index (row-major). -/
def spatialCol (H W : Nat) (s : Fin (H * W)) : Fin W :=
  ⟨s.val % W, by
    have hW : 0 < W := by
      rcases Nat.eq_zero_or_pos W with h0 | h0
      · exact absurd s.isLt (by simp [h0])
      · exact h0
    exact Nat.mod_lt _ hW⟩

lemma spatialRow_flat (H W : Nat) (h : Fin H) (w : Fin W) :
    spatialRow H W (flatSpatial H W h w) = h := by
  have hW : 0 < W := w.pos
  apply Fin.ext
  show (h.val * W + w.val) / W = h.val
  rw [Nat.add_comm, Nat.mul_comm, Nat.add_mul_div_left _ _ hW,
    Nat.div_eq_of_lt w.isLt, Nat.zero_add]

lemma spatialCol_flat (H W : Nat) (h : Fin H) (w : Fin W) :
    spatialCol H W (flatSpatial H W h w) = w := by
  apply Fin.ext
  show (h.val * W + w.val) % W = w.val
  rw [Nat.add_comm, Nat.mul_comm, Nat.add_mul_mod_self_left,
    Nat.mod_eq_of_lt w.isLt]

/-- `reg_distri.reshape([-1, 4, reg_max + 1, height_mul_width])` applied to the raw
regression output `[B, 4 * (reg_max + 1), H, W]` of a head (row-major reshape of a
contiguous tensor). -/
def reshapeRegDistri (R B H W : Nat)
    (regOutput : Fin B → Fin (4 * (R + 1)) → Fin H → Fin W → ℚ) :
    Fin B → Fin 4 → Fin (R + 1) → Fin (H * W) → ℚ :=
  fun b k j s => regOutput b (sideChannel R k j) (spatialRow H W s) (spatialCol H W s)

/-- `torch.permute(x, [0, 2, 3, 1])` on a `[B, 4, R + 1, HW]` tensor. -/
def permute0231 (R B HW : Nat) (x : Fin B → Fin 4 → Fin (R + 1) → Fin HW → ℚ) :
    Fin B → Fin (R + 1) → Fin HW → Fin 4 → ℚ :=
  fun b j s k => x b k j s

/-- `torch.nn.functional.softmax(x, dim=1)` on a `[B, R + 1, HW, 4]` tensor,
with the exponential abstracted as `e`. -/
def softmaxDim1 (e : ℚ → ℚ) (R B HW : Nat)
    (x : Fin B → Fin (R + 1) → Fin HW → Fin 4 → ℚ) :
    Fin B → Fin (R + 1) → Fin HW → Fin 4 → ℚ :=
  fun b j s k => e (x b j s k) / ∑ j' : Fin (R + 1), e (x b j' s k)

/-- `torch.nn.functional.conv2d(x, weight=self.proj_conv).squeeze(1)`: a 1x1
convolution over the `R + 1` input channels with the single output channel
weighted by `projConv`, then dropping the singleton channel axis. -/
def projConv2d (R B HW : Nat) (x : Fin B → Fin (R + 1) → Fin HW → Fin 4 → ℚ) :
    Fin B → Fin HW → Fin 4 → ℚ :=
  fun b s k => ∑ j : Fin (R + 1), projConv R j * x b j s k

/-- Lines 181-182 of `dfl_heads.py` (`NDFLHeads.forward_eval`): the raw regression
output of one feature map is reshaped, permuted, softmaxed over the bin axis and
reduced by the `proj_conv` convolution to 4 distances per anchor. -/
def regDistReduced (e : ℚ → ℚ) (R B H W : Nat)
    (regOutput : Fin B → Fin (4 * (R + 1)) → Fin H → Fin W → ℚ) :
    Fin B → Fin (H * W) → Fin 4 → ℚ :=
  projConv2d R B (H * W) (softmaxDim1 e R B (H * W)
    (permute0231 R B (H * W) (reshapeRegDistri R B H W regOutput)))

/-- Softmax of a single `(R + 1)`-vector of logits (one side's distribution). -/
def softmaxVec (e : ℚ → ℚ) (n : Nat) (v : Fin n → ℚ) : Fin n → ℚ :=
  fun i => e (v i) / ∑ i' : Fin n, e (v i')

/-- C1: in `NDFLHeads.forward_eval`, the raw regression output
`[B, 4 * (reg_max + 1), H, W]` of every feature map is reduced to 4 distances per
anchor: for each batch `b`, spatial position `(h, w)` and side `k`, the reduced
value is the expected bin index `∑ j, j * softmax(logits)_j` of the softmax over
the `reg_max + 1` bins of that side's distribution, the convolution weights being
`linspace(0, reg_max, reg_max + 1)`. -/
theorem regDistReduced_is_expected_bin_index (e : ℚ → ℚ) (R B H W : Nat)
    (regOutput : Fin B → Fin (4 * (R + 1)) → Fin H → Fin W → ℚ)
    (b : Fin B) (h : Fin H) (w : Fin W) (k : Fin 4) :
    regDistReduced e R B H W regOutput b (flatSpatial H W h w) k =
      ∑ j : Fin (R + 1),
        (j.val : ℚ) * softmaxVec e (R + 1) (fun j' => regOutput b (sideChannel R k j') h w) j := by
  unfold regDistReduced projConv2d softmaxDim1 permute0231 reshapeRegDistri softmaxVec
  rw [spatialRow_flat, spatialCol_flat]
  exact Finset.sum_congr rfl fun j _ => by rw [projConv_eq_idx]

/-- `torch.sigmoid`, with the exponential abstracted as `e`:
`sigmoid(x) = 1 / (1 + exp(-x))`. -/
def sigmoid (e : ℚ → ℚ) (x : ℚ) : ℚ := 1 / (1 + e (-x))

/-- Anchor data produced by `PPYOLOEHead._generate_anchors`: `anchor_points`
of shape `[A, 2]` and `stride_tensor` of shape `[A, 1]` for `A` anchors. -/
structure AnchorData (A : Nat) where
  anchorPoints : Fin A → Fin 2 → ℚ
  strideTensor : Fin A → ℚ

/-- External context of `NDFLHeads.forward_eval` over `A` anchors, batch `B`,
`C` classes and feature maps of type `Feats`.  `_generate_anchors` and
`batch_distance2bbox` are defined outside `src/` (in `pp_yolo_head.py` and
`bbox_utils.py`), so they are kept abstract: the claims only constrain which
arguments they are applied to, not their values. -/
structure NDFLContext (Feats : Type) (A B : Nat) where
  /-- abstract exponential for `sigmoid` -/
  e : ℚ → ℚ
  /-- `self._generate_anchors()` computed from `self.eval_size` (no `feats` argument) -/
  genFromSize : Nat × Nat → AnchorData A
  /-- `self._generate_anchors(feats)` computed from the feature-map shapes -/
  genFromFeats : Feats → AnchorData A
  /-- `batch_distance2bbox(points, distance)` from `bbox_utils.py` -/
  batchDistance2bbox : (Fin A → Fin 2 → ℚ) → (Fin B → Fin A → Fin 4 → ℚ) →
    Fin B → Fin A → Fin 4 → ℚ

/-- The fields of an `NDFLHeads` instance that the decoding stage reads:
`self.eval_size`, and the cached `self.anchor_points` / `self.stride_tensor`.
In Python the cached attributes exist only once `cache_anchors` or
`_init_weights` (with `eval_size` set) has stored them; here they always carry
a value, and the claims only constrain states produced by those two methods. -/
structure NDFLHeadsState (A : Nat) where
  evalSize : Option (Nat × Nat)
  anchorPoints : Fin A → Fin 2 → ℚ
  strideTensor : Fin A → ℚ

/-- `NDFLHeads.cache_anchors(input_size)`: set `self.eval_size = input_size`,
recompute `self._generate_anchors()` and store the result in
`self.anchor_points` / `self.stride_tensor`. -/
def NDFLHeadsState.cacheAnchors {Feats : Type} {A B : Nat} (ctx : NDFLContext Feats A B)
    (st : NDFLHeadsState A) (inputSize : Nat × Nat) : NDFLHeadsState A :=
  let st := { st with evalSize := some inputSize }
  let ad := ctx.genFromSize inputSize
  { st with anchorPoints := ad.anchorPoints, strideTensor := ad.strideTensor }

/-- `NDFLHeads._init_weights`: when `self.eval_size` is set, compute
`self._generate_anchors()` and store it; otherwise leave the state alone. -/
def NDFLHeadsState.initWeights {Feats : Type} {A B : Nat} (ctx : NDFLContext Feats A B)
    (st : NDFLHeadsState A) : NDFLHeadsState A :=
  match st.evalSize with
  | some sz =>
    let ad := ctx.genFromSize sz
    { st with anchorPoints := ad.anchorPoints, strideTensor := ad.strideTensor }
  | none => st

/-- Lines 194-204 of `dfl_heads.py` (`NDFLHeads.forward_eval`, decode stage):
select `anchor_points_inference` / `stride_tensor` from the cache when
`self.eval_size` is set, else regenerate them from the feature maps; then
`pred_scores = cls_score_list.sigmoid()` and
`pred_bboxes = batch_distance2bbox(anchor_points_inference, reg_dist_reduced_list) * stride_tensor`.
Inputs are the concatenated `cls_score_list` (`[B, A, C]`, after permute) and
`reg_dist_reduced_list` (`[B, A, 4]`); the result is `(pred_bboxes, pred_scores)`. -/
def NDFLHeadsState.decodePredictions {Feats : Type} {A B C : Nat}
    (ctx : NDFLContext Feats A B) (st : NDFLHeadsState A) (feats : Feats)
    (clsScoreList : Fin B → Fin A → Fin C → ℚ)
    (regDistReducedList : Fin B → Fin A → Fin 4 → ℚ) :
    (Fin B → Fin A → Fin 4 → ℚ) × (Fin B → Fin A → Fin C → ℚ) :=
  let anchorsInference : (Fin A → Fin 2 → ℚ) × (Fin A → ℚ) :=
    match st.evalSize with
    | some _ => (st.anchorPoints, st.strideTensor)
    | none => ((ctx.genFromFeats feats).anchorPoints, (ctx.genFromFeats feats).strideTensor)
  let predScores := fun b a c => sigmoid ctx.e (clsScoreList b a c)
  let predBboxes := fun b a k =>
    ctx.batchDistance2bbox anchorsInference.1 regDistReducedList b a k * anchorsInference.2 a
  (predBboxes, predScores)

/-- C4: in `NDFLHeads.forward_eval` the decoded predictions are
`pred_scores = sigmoid(cls_score_list)` (shape `[B, Anchors, C]`) and
`pred_bboxes = batch_distance2bbox(anchor_points, reg_dist_reduced) * stride_tensor`
(shape `[B, Anchors, 4]`); when `eval_size` is set the anchor points and stride
tensor used are the cached ones (which `cache_anchors` and `_init_weights`
store as `_generate_anchors()` of the eval size), and when it is unset they are
regenerated from the feature maps. -/
theorem forward_eval_decode_spec {Feats : Type} {A B C : Nat}
    (ctx : NDFLContext Feats A B) (sz : Nat × Nat)
    (ap : Fin A → Fin 2 → ℚ) (strideT : Fin A → ℚ) (feats : Feats)
    (cls : Fin B → Fin A → Fin C → ℚ) (reg : Fin B → Fin A → Fin 4 → ℚ) :
    (∀ b a c, (NDFLHeadsState.decodePredictions ctx ⟨some sz, ap, strideT⟩ feats cls reg).2 b a c
        = sigmoid ctx.e (cls b a c)) ∧
    (∀ b a c, (NDFLHeadsState.decodePredictions ctx ⟨none, ap, strideT⟩ feats cls reg).2 b a c
        = sigmoid ctx.e (cls b a c)) ∧
    (∀ b a k, (NDFLHeadsState.decodePredictions ctx ⟨some sz, ap, strideT⟩ feats cls reg).1 b a k
        = ctx.batchDistance2bbox ap reg b a k * strideT a) ∧
    (∀ b a k, (NDFLHeadsState.decodePredictions ctx ⟨none, ap, strideT⟩ feats cls reg).1 b a k
        = ctx.batchDistance2bbox (ctx.genFromFeats feats).anchorPoints reg b a k
            * (ctx.genFromFeats feats).strideTensor a) ∧
    (NDFLHeadsState.cacheAnchors ctx ⟨none, ap, strideT⟩ sz
        = ⟨some sz, (ctx.genFromSize sz).anchorPoints, (ctx.genFromSize sz).strideTensor⟩) ∧
    (NDFLHeadsState.initWeights ctx ⟨some sz, ap, strideT⟩
        = ⟨some sz, (ctx.genFromSize sz).anchorPoints, (ctx.genFromSize sz).strideTensor⟩) := by
  refine ⟨fun b a c => rfl, fun b a c => rfl, fun b a k => rfl, fun b a k => rfl, rfl, rfl⟩

/-! ## Knowledge distillation module (kd_module.py) -/

/-- One `torch.nn.Parameter`: a payload together with its `requires_grad` flag. -/
structure NNParam where
  data : Int
  requiresGrad : Bool
deriving DecidableEq

/-- The observable state of a `torch.nn.Module` the claims are about: its
parameter list and its `training` flag. -/
structure NNModule where
  params : List NNParam
  training : Bool
deriving DecidableEq

/-- `module.train(mode)`: sets the `training` flag (recursively in torch; here
the module is a single opaque unit). -/
def NNModule.train (m : NNModule) (mode : Bool) : NNModule := { m with training := mode }

/-- `module.eval()`, which in torch is `train(False)`. -/
def NNModule.eval (m : NNModule) : NNModule := m.train false

/-- The `arch_params` structure consumed by `KDModule.__init__`: the student and
teacher sub-modules and the optional `run_teacher_on_eval` attribute
(`get_param` returns the default `False` when the attribute is absent). -/
structure KDArchParams where
  student : NNModule
  teacher : NNModule
  runTeacherOnEval : Option Bool
deriving DecidableEq

/-- `get_param(arch_params, "run_teacher_on_eval", False)`. -/
def getParam (attr : Option Bool) (defaultVal : Bool) : Bool := attr.getD defaultVal

/-- The state of a `KDModule`. -/
structure KDModule where
  student : NNModule
  teacher : NNModule
  runTeacherOnEval : Bool
deriving DecidableEq

/-- `KDModule._freeze_teacher`: `for p in self.teacher.parameters(): p.requires_grad = False`. -/
def freezeTeacher (t : NNModule) : NNModule :=
  { t with params := t.params.map fun p => { p with requiresGrad := false } }

/-- `KDModule.__init__(arch_params)`: store student, teacher and
`run_teacher_on_eval`, freeze the teacher, and when `run_teacher_on_eval` is
set move the teacher to eval mode explicitly. -/
def KDModule.init (ap : KDArchParams) : KDModule :=
  let m : KDModule :=
    { student := ap.student, teacher := ap.teacher,
      runTeacherOnEval := getParam ap.runTeacherOnEval false }
  let m := { m with teacher := freezeTeacher m.teacher }
  if m.runTeacherOnEval then { m with teacher := m.teacher.eval } else m

/-- The named tuple `KDOutput = namedtuple('KDOutput', 'student_output teacher_output')`. -/
structure KDOutput (Y : Type) where
  student_output : Y
  teacher_output : Y
deriving DecidableEq

/-- `KDModule.forward(x)`: apply the student and the teacher to the same input
`x` and pack the two outputs.  `studentF` / `teacherF` interpret the abstract
sub-modules as functions. -/
def KDModule.forward {X Y : Type} (m : KDModule)
    (studentF teacherF : NNModule → X → Y) (x : X) : KDOutput Y :=
  { student_output := studentF m.student x, teacher_output := teacherF m.teacher x }

/-- The state-affecting operations of `KDModule`: `train(mode)`, `eval()`,
`forward`, `initialize_param_groups`, `update_param_groups` and
`replace_head` (the latter delegating to an arbitrary student transformation). -/
inductive KDOp where
  | trainOp (mode : Bool)
  | evalOp
  | forwardOp
  | initParamGroupsOp
  | updateParamGroupsOp
  | replaceHeadOp
deriving DecidableEq

/-- Effect of one `KDModule` operation on the module state.  `train` sets the
student mode and, only when `run_teacher_on_eval` is false, the teacher mode;
`eval` sets both to eval; `replace_head` applies the abstract student-side
transformation `rh`; `forward` and the param-group methods only read state. -/
def KDModule.applyOp (rh : NNModule → NNModule) (m : KDModule) : KDOp → KDModule
  | .trainOp mode =>
    { m with student := m.student.train mode,
             teacher := if m.runTeacherOnEval then m.teacher else m.teacher.train mode }
  | .evalOp => { m with student := m.student.eval, teacher := m.teacher.eval }
  | .forwardOp => m
  | .initParamGroupsOp => m
  | .updateParamGroupsOp => m
  | .replaceHeadOp => { m with student := rh m.student }

/-- Run a sequence of `KDModule` operations. -/
def KDModule.applyOps (rh : NNModule → NNModule) (m : KDModule) (ops : List KDOp) : KDModule :=
  ops.foldl (KDModule.applyOp rh) m

/-- All teacher parameters are frozen (`requires_grad = False`). -/
def teacherFrozen (m : KDModule) : Bool :=
  m.teacher.params.all fun p => !p.requiresGrad

lemma applyOp_teacher_params (rh : NNModule → NNModule) (m : KDModule) (op : KDOp) :
    (m.applyOp rh op).teacher.params = m.teacher.params := by
  cases op <;> simp [KDModule.applyOp, NNModule.eval, NNModule.train]
  split <;> rfl

lemma applyOps_teacher_params (rh : NNModule → NNModule) (m : KDModule) (ops : List KDOp) :
    (m.applyOps rh ops).teacher.params = m.teacher.params := by
  induction ops generalizing m with
  | nil => rfl
  | cons op ops ih =>
    show ((m.applyOp rh op).applyOps rh ops).teacher.params = _
    rw [ih, applyOp_teacher_params]

/-- C5: `KDModule.forward(x)` returns a `KDOutput` named tuple whose
`student_output` field is the student applied to `x` and whose
`teacher_output` field is the teacher applied to the very same unmodified `x`. -/
theorem kd_forward_applies_both_models {X Y : Type} (m : KDModule)
    (studentF teacherF : NNModule → X → Y) (x : X) :
    m.forward studentF teacherF x
      = { student_output := studentF m.student x, teacher_output := teacherF m.teacher x } :=
  rfl

/-- C8: right after `KDModule.__init__` every teacher parameter has
`requires_grad = False`, and no sequence of `KDModule` operations (`train`,
`eval`, `forward`, `initialize_param_groups`, `update_param_groups`,
`replace_head`) ever sets a teacher parameter's `requires_grad` back to true:
the teacher stays frozen for the module's whole lifetime. -/
theorem kd_teacher_stays_frozen (ap : KDArchParams) (rh : NNModule → NNModule)
    (ops : List KDOp) :
    teacherFrozen (KDModule.init ap) = true ∧
    teacherFrozen ((KDModule.init ap).applyOps rh ops) = true := by
  have hinit : teacherFrozen (KDModule.init ap) = true := by
    unfold KDModule.init teacherFrozen freezeTeacher
    by_cases hr : getParam ap.runTeacherOnEval false = true
    · simp [hr, NNModule.eval, NNModule.train, List.all_eq_true]
    · simp [hr, List.all_eq_true]
  refine ⟨hinit, ?_⟩
  unfold teacherFrozen at hinit ⊢
  rw [applyOps_teacher_params]
  exact hinit

lemma applyOp_rte (rh : NNModule → NNModule) (m : KDModule) (op : KDOp) :
    (m.applyOp rh op).runTeacherOnEval = m.runTeacherOnEval := by
  cases op <;> rfl

lemma applyOp_teacher_not_training (rh : NNModule → NNModule) (m : KDModule) (op : KDOp)
    (hrte : m.runTeacherOnEval = true) (ht : m.teacher.training = false) :
    (m.applyOp rh op).teacher.training = false := by
  cases op <;> simp [KDModule.applyOp, NNModule.eval, NNModule.train, hrte, ht]

lemma applyOps_teacher_not_training (rh : NNModule → NNModule) (m : KDModule) (ops : List KDOp)
    (hrte : m.runTeacherOnEval = true) (ht : m.teacher.training = false) :
    ((m.applyOps rh ops).teacher.training = false) := by
  induction ops generalizing m with
  | nil => exact ht
  | cons op ops ih =>
    show ((m.applyOp rh op).applyOps rh ops).teacher.training = false
    exact ih _ (by rw [applyOp_rte]; exact hrte)
      (applyOp_teacher_not_training rh m op hrte ht)

/-- C9: with `run_teacher_on_eval = True` the teacher is put in eval mode at
construction, `KDModule.train(mode)` changes only the student's mode (for both
values of `mode` the teacher sub-module is untouched), and under any sequence
of `train` / `eval` calls (indeed of all `KDModule` operations) the teacher
never enters training mode. -/
theorem kd_teacher_never_trains (student teacher : NNModule)
    (rh : NNModule → NNModule) (mode : Bool) (s t : NNModule) (ops : List KDOp) :
    ((KDModule.init ⟨student, teacher, some true⟩).teacher.training = false) ∧
    ((KDModule.applyOp rh ⟨s, t, true⟩ (.trainOp mode)).teacher = t) ∧
    ((KDModule.applyOp rh ⟨s, t, true⟩ (.trainOp mode)).student = s.train mode) ∧
    (((KDModule.init ⟨student, teacher, some true⟩).applyOps rh ops).teacher.training = false) := by
  have hinit : (KDModule.init ⟨student, teacher, some true⟩).teacher.training = false := rfl
  refine ⟨hinit, rfl, rfl, ?_⟩
  exact applyOps_teacher_not_training rh _ ops rfl hinit

/-! ## Inference pipeline (pipelines.py) -/

/-- The observable state of the `SgModule` run by a pipeline: its `training`
flag and the device it currently lives on. -/
structure SgModuleState where
  training : Bool
  device : String
deriving DecidableEq

/-- `module.to(device)`. -/
def SgModuleState.toDevice (m : SgModuleState) (device : String) : SgModuleState :=
  { m with device := device }

/-- The conditions under which the model is invoked inside `Pipeline._run`:
its `training` flag, whether gradient computation is enabled
(`torch.no_grad`), the device the model is on, and the device the input
tensor was moved to (`.to(self.device)`). -/
structure ModelCallCtx where
  training : Bool
  gradEnabled : Bool
  modelDevice : String
  inputsDevice : String
deriving DecidableEq

/-- The `eval_mode(model)` context manager of `pipelines.py`: save
`model.training`, call `model.eval()`, run the body under `torch.no_grad()`
(the body receives the eval-mode model and the gradient flag), and on exit
call `model.train(mode=_starting_mode)`.  Returns the body's result together
with the restored model. -/
def evalModeRun {α : Type} (model : SgModuleState) (body : SgModuleState → Bool → α) :
    α × SgModuleState :=
  let startingMode := model.training
  let modelEval := { model with training := false }
  let result := body modelEval false
  (result, { modelEval with training := startingMode })

/-- The processing callbacks a `Pipeline` is built from: `load_images`, the
image processor's `preprocess_image` / `postprocess_predictions`, the model
itself, and the `.detach().cpu().numpy()` conversion applied before
postprocessing. -/
structure PipelineSpec (Input Img PImg Meta ModelOut Pred NpPred FinalPred : Type) where
  loadImages : Input → List Img
  preprocessImage : Img → PImg × Meta
  applyModel : ModelCallCtx → List PImg → ModelOut
  toNumpy : Pred → NpPred
  postprocessPredictions : NpPred → Meta → FinalPred

/-- The state of an abstract `Pipeline`: its processing spec, the (abstract)
`_decode_model_output` method, the model and the configured device. -/
structure PipelineState (Input Img PImg Meta ModelOut Pred NpPred FinalPred : Type) where
  spec : PipelineSpec Input Img PImg Meta ModelOut Pred NpPred FinalPred
  decodeModelOutput : String → ModelOut → List Pred
  model : SgModuleState
  device : String

/-- `Pipeline.__init__(model, image_processor, device)`:
`self.model = model.to(device)` and `self.device = device`. -/
def Pipeline.init {Input Img PImg Meta ModelOut Pred NpPred FinalPred : Type}
    (spec : PipelineSpec Input Img PImg Meta ModelOut Pred NpPred FinalPred)
    (decode : String → ModelOut → List Pred) (model : SgModuleState) (device : String) :
    PipelineState Input Img PImg Meta ModelOut Pred NpPred FinalPred :=
  { spec := spec, decodeModelOutput := decode, model := model.toDevice device, device := device }

/-- What `Pipeline._run` produces: the loaded images, the postprocessed
predictions, the model state after the run, and (for verification) the
conditions under which the model was invoked. -/
structure RunResult (Img FinalPred : Type) where
  images : List Img
  predictions : List FinalPred
  modelAfter : SgModuleState
  callCtx : ModelCallCtx

/-- `Pipeline._run(images)`, line by line:
`self.model = self.model.to(self.device)`; `images = load_images(images)`;
the preprocess loop collecting `preprocessed_images` and
`processing_metadatas`; the predict stage inside `eval_mode(self.model)`
building `torch_inputs` on `self.device`, applying the model and
`self._decode_model_output`; and the postprocess loop zipping
`torch_predictions` with `processing_metadatas`. -/
def PipelineState.run {Input Img PImg Meta ModelOut Pred NpPred FinalPred : Type}
    (p : PipelineState Input Img PImg Meta ModelOut Pred NpPred FinalPred)
    (inputs : Input) : RunResult Img FinalPred :=
  let model0 := p.model.toDevice p.device
  let images := p.spec.loadImages inputs
  let pairs := images.map fun image => p.spec.preprocessImage image
  let preprocessedImages := pairs.map Prod.fst
  let processingMetadatas := pairs.map Prod.snd
  let bodyResult := evalModeRun model0 fun modelEval gradEnabled =>
    let callCtx : ModelCallCtx :=
      { training := modelEval.training, gradEnabled := gradEnabled,
        modelDevice := modelEval.device, inputsDevice := p.device }
    let modelOutput := p.spec.applyModel callCtx preprocessedImages
    let torchPredictions := p.decodeModelOutput p.device modelOutput
    (torchPredictions, callCtx)
  let torchPredictions := bodyResult.1.1
  let callCtx := bodyResult.1.2
  let modelAfter := bodyResult.2
  let predictions := List.zipWith
    (fun torchPrediction processingMetadata =>
      p.spec.postprocessPredictions (p.spec.toNumpy torchPrediction) processingMetadata)
    torchPredictions processingMetadatas
  { images := images, predictions := predictions, modelAfter := modelAfter, callCtx := callCtx }

/-- The `eval_mode` context manager restores the saved training flag on exit. -/
lemma evalModeRun_restores {α : Type} (m : SgModuleState) (body : SgModuleState → Bool → α) :
    (evalModeRun m body).2.training = m.training := rfl

/-- C3: during the predict stage of `Pipeline._run` the model is invoked in
evaluation mode (`training = false`) with gradient computation disabled, and
after `_run` returns the model's training flag equals the value it had
immediately before the predict stage (the flag of `self.model.to(self.device)`,
which is also the flag the model entered `_run` with): `eval_mode` saves
`model.training`, calls `model.eval()`, and on exit restores the saved mode,
so the pipeline as a whole leaves the training mode unchanged. -/
theorem pipeline_run_eval_mode_and_restore
    {Input Img PImg Meta ModelOut Pred NpPred FinalPred : Type}
    (p : PipelineState Input Img PImg Meta ModelOut Pred NpPred FinalPred)
    (inputs : Input) :
    ((p.run inputs).callCtx.training = false) ∧
    ((p.run inputs).callCtx.gradEnabled = false) ∧
    ((p.run inputs).modelAfter.training = (p.model.toDevice p.device).training) ∧
    ((p.run inputs).modelAfter.training = p.model.training) :=
  ⟨rfl, rfl, rfl, rfl⟩

/-- C6: every invocation of `Pipeline._run` first moves the model to the
pipeline's configured device, and the input tensor is moved to that same
device before the model is applied, so the predict stage runs the model and
its inputs on `self.device`; and `self.device` is the device fixed at
`Pipeline.__init__`, which also moves the model there. -/
theorem pipeline_run_on_configured_device
    {Input Img PImg Meta ModelOut Pred NpPred FinalPred : Type}
    (spec : PipelineSpec Input Img PImg Meta ModelOut Pred NpPred FinalPred)
    (decode : String → ModelOut → List Pred) (model : SgModuleState) (device : String)
    (p : PipelineState Input Img PImg Meta ModelOut Pred NpPred FinalPred)
    (inputs : Input) :
    ((Pipeline.init spec decode model device).device = device) ∧
    ((Pipeline.init spec decode model device).model.device = device) ∧
    ((p.run inputs).callCtx.modelDevice = p.device) ∧
    ((p.run inputs).callCtx.inputsDevice = p.device) :=
  ⟨rfl, rfl, rfl, rfl⟩

/-! ## Detection pipeline (pipelines.py, `DetectionPipeline`) -/

/-- The torch dtypes the claims mention. -/
inductive TorchDType where
  | float32
  | float64
  | int64
deriving DecidableEq

/-- A torch tensor as shape, dtype and row-major data. -/
structure TorchTensor where
  shape : List Nat
  dtype : TorchDType
  data : List ℚ
deriving DecidableEq

/-- `torch.zeros(shape, dtype=dtype)`. -/
def torchZeros (shape : List Nat) (dtype : TorchDType) : TorchTensor :=
  { shape := shape, dtype := dtype, data := List.replicate shape.prod 0 }

/-- `DetectionPipeline._decode_model_output`: apply
`self.post_prediction_callback(model_output, device=self.device)` and replace
every `None` entry of the resulting list with
`torch.zeros((0, 6), dtype=torch.float32)`. -/
def detectionDecodeModelOutput {ModelOut : Type}
    (cb : ModelOut → String → List (Option TorchTensor))
    (device : String) (modelOutput : ModelOut) : List TorchTensor :=
  (cb modelOutput device).map fun decodedPrediction =>
    match decodedPrediction with
    | some t => t
    | none => torchZeros [0, 6] .float32

/-- C7: `DetectionPipeline._decode_model_output` returns a list of the same
length as the output of `post_prediction_callback` in which every `None` entry
has been replaced by a float32 zero tensor of shape `(0, 6)` and every
non-`None` entry is passed through unchanged; the returned list (of plain
tensors) never contains `None`. -/
theorem detection_decode_replaces_none {ModelOut : Type}
    (cb : ModelOut → String → List (Option TorchTensor)) (device : String)
    (modelOutput : ModelOut) :
    ((detectionDecodeModelOutput cb device modelOutput).length
        = (cb modelOutput device).length) ∧
    (∀ i : Fin (cb modelOutput device).length,
      (detectionDecodeModelOutput cb device modelOutput).get
          ⟨i.val, by simp [detectionDecodeModelOutput]⟩
        = match (cb modelOutput device).get i with
          | some t => t
          | none => torchZeros [0, 6] .float32) ∧
    ((torchZeros [0, 6] .float32).shape = [0, 6]) ∧
    ((torchZeros [0, 6] .float32).dtype = .float32) ∧
    ((torchZeros [0, 6] .float32).data = []) := by
  refine ⟨List.length_map _ _, fun i => ?_, rfl, rfl, rfl⟩
  simp only [detectionDecodeModelOutput, List.get_eq_getElem, List.getElem_map]

/-- The result object built by `DetectionPipeline.__call__`:
`DetectionResults(images=..., predictions=..., class_names=...)`. -/
structure DetectionResults (Img FinalPred : Type) where
  images : List Img
  predictions : List FinalPred
  classNames : List String

/-- The state of a `DetectionPipeline`: the base pipeline data plus
`post_prediction_callback` and `class_names`. -/
structure DetectionPipelineState (Input Img PImg Meta ModelOut NpPred FinalPred : Type) where
  spec : PipelineSpec Input Img PImg Meta ModelOut TorchTensor NpPred FinalPred
  postPredictionCallback : ModelOut → String → List (Option TorchTensor)
  classNames : List String
  model : SgModuleState
  device : String

/-- `DetectionPipeline.__init__`: `super().__init__(model, device,
image_processor)` (which moves the model to the device) then store the
callback and the class names. -/
def DetectionPipeline.init {Input Img PImg Meta ModelOut NpPred FinalPred : Type}
    (spec : PipelineSpec Input Img PImg Meta ModelOut TorchTensor NpPred FinalPred)
    (model : SgModuleState) (classNames : List String)
    (cb : ModelOut → String → List (Option TorchTensor)) (device : String) :
    DetectionPipelineState Input Img PImg Meta ModelOut NpPred FinalPred :=
  { spec := spec, postPredictionCallback := cb, classNames := classNames,
    model := model.toDevice device, device := device }

/-- A `DetectionPipeline` seen as the base `Pipeline` it inherits from, its
abstract `_decode_model_output` resolved to `detectionDecodeModelOutput`. -/
def DetectionPipelineState.toPipeline {Input Img PImg Meta ModelOut NpPred FinalPred : Type}
    (p : DetectionPipelineState Input Img PImg Meta ModelOut NpPred FinalPred) :
    PipelineState Input Img PImg Meta ModelOut TorchTensor NpPred FinalPred :=
  { spec := p.spec,
    decodeModelOutput := fun device out => detectionDecodeModelOutput p.postPredictionCallback device out,
    model := p.model, device := p.device }

/-- `DetectionPipeline.__call__(images)`:
`images, predictions = self._run(images=images)` then
`DetectionResults(images=images, predictions=predictions, class_names=self.class_names)`. -/
def DetectionPipelineState.call {Input Img PImg Meta ModelOut NpPred FinalPred : Type}
    (p : DetectionPipelineState Input Img PImg Meta ModelOut NpPred FinalPred)
    (inputs : Input) : DetectionResults Img FinalPred :=
  let r := p.toPipeline.run inputs
  { images := r.images, predictions := r.predictions, classNames := p.classNames }

/-- Stage 1 of the spec's staging: load the inputs into a list of images. -/
def DetectionPipelineState.loadStage {Input Img PImg Meta ModelOut NpPred FinalPred : Type}
    (p : DetectionPipelineState Input Img PImg Meta ModelOut NpPred FinalPred)
    (inputs : Input) : List Img :=
  p.spec.loadImages inputs

/-- Stage 2 of the spec's staging: preprocess each image, recording per-image
metadata alongside the preprocessed image. -/
def DetectionPipelineState.preprocStage {Input Img PImg Meta ModelOut NpPred FinalPred : Type}
    (p : DetectionPipelineState Input Img PImg Meta ModelOut NpPred FinalPred)
    (images : List Img) : List (PImg × Meta) :=
  images.map p.spec.preprocessImage

/-- Stage 3 of the spec's staging: run the model once on the batched
preprocessed inputs (in eval mode, without gradients, on the pipeline device)
and decode the model output. -/
def DetectionPipelineState.predictStage {Input Img PImg Meta ModelOut NpPred FinalPred : Type}
    (p : DetectionPipelineState Input Img PImg Meta ModelOut NpPred FinalPred)
    (preprocItems : List (PImg × Meta)) : List TorchTensor :=
  detectionDecodeModelOutput p.postPredictionCallback p.device
    (p.spec.applyModel
      { training := false, gradEnabled := false, modelDevice := p.device, inputsDevice := p.device }
      (preprocItems.map Prod.fst))

/-- Stage 4 of the spec's staging: postprocess each decoded prediction with
the metadata recorded for the same image in stage 2. -/
def DetectionPipelineState.postprocStage {Input Img PImg Meta ModelOut NpPred FinalPred : Type}
    (p : DetectionPipelineState Input Img PImg Meta ModelOut NpPred FinalPred)
    (torchPredictions : List TorchTensor) (preprocItems : List (PImg × Meta)) : List FinalPred :=
  List.zipWith
    (fun torchPrediction item =>
      p.spec.postprocessPredictions (p.spec.toNumpy torchPrediction) item.2)
    torchPredictions preprocItems

lemma zipWith_map_right_eq {α β γ δ : Type} (f : α → γ → δ) (g : β → γ)
    (l : List α) (l' : List β) :
    List.zipWith f l (l'.map g) = List.zipWith (fun a b => f a (g b)) l l' := by
  induction l generalizing l' with
  | nil => simp
  | cons a l ih =>
    cases l' with
    | nil => simp
    | cons b l' => simp [ih]

/-- C2: `DetectionPipeline.__call__` produces its result by the four stages
load, preprocess, predict, postprocess in this order: the returned images are
the loaded images; the returned predictions are obtained by postprocessing the
decoded model outputs (the model applied once to the whole preprocessed batch)
with the metadata of the image at the same position; and, whenever the
post-prediction callback yields one entry per batched image, both returned
lists have one entry per input image, in input order. -/
theorem detection_call_four_stages
    {Input Img PImg Meta ModelOut NpPred FinalPred : Type}
    (p : DetectionPipelineState Input Img PImg Meta ModelOut NpPred FinalPred)
    (inputs : Input)
    (hlen : (p.postPredictionCallback
        (p.spec.applyModel
          { training := false, gradEnabled := false, modelDevice := p.device, inputsDevice := p.device }
          ((p.preprocStage (p.loadStage inputs)).map Prod.fst))
        p.device).length
      = (p.loadStage inputs).length) :
    ((p.call inputs).images = p.loadStage inputs) ∧
    ((p.call inputs).predictions
      = p.postprocStage (p.predictStage (p.preprocStage (p.loadStage inputs)))
          (p.preprocStage (p.loadStage inputs))) ∧
    ((p.call inputs).predictions.length = (p.loadStage inputs).length) ∧
    ((p.call inputs).classNames = p.classNames) := by
  have h2 : (p.call inputs).predictions
      = p.postprocStage (p.predictStage (p.preprocStage (p.loadStage inputs)))
          (p.preprocStage (p.loadStage inputs)) := by
    show List.zipWith
        (fun torchPrediction processingMetadata =>
          p.spec.postprocessPredictions (p.spec.toNumpy torchPrediction) processingMetadata)
        (detectionDecodeModelOutput p.postPredictionCallback p.device
          (p.spec.applyModel
            { training := false, gradEnabled := false,
              modelDevice := p.device, inputsDevice := p.device }
            (((p.loadStage inputs).map p.spec.preprocessImage).map Prod.fst)))
        (((p.loadStage inputs).map p.spec.preprocessImage).map Prod.snd) = _
    rw [zipWith_map_right_eq]
    rfl
  refine ⟨rfl, h2, ?_, rfl⟩
  rw [h2]
  unfold DetectionPipelineState.postprocStage
  rw [List.length_zipWith]
  have hdecode : (p.predictStage (p.preprocStage (p.loadStage inputs))).length
      = (p.loadStage inputs).length := by
    unfold DetectionPipelineState.predictStage detectionDecodeModelOutput
    rw [List.length_map]
    exact hlen
  rw [hdecode]
  unfold DetectionPipelineState.preprocStage
  rw [List.length_map]
  exact Nat.min_self _

/-- A concrete detection pipeline used to exercise the staging theorem:
inputs are lists of naturals loaded as-is, preprocessing yields `(i + 1, i)`,
the model echoes its batch, and the post-prediction callback yields one entry
per batched image (`None` for even values). -/
def demoDetectionPipeline : DetectionPipelineState (List Nat) Nat Nat Nat (List Nat) TorchTensor Nat :=
  { spec :=
    { loadImages := fun l => l
      preprocessImage := fun i => (i + 1, i)
      applyModel := fun _ l => l
      toNumpy := fun t => t
      postprocessPredictions := fun t md => t.data.length + md }
    postPredictionCallback := fun out _ =>
      out.map fun v => if v % 2 = 0 then none else some (torchZeros [v, 6] .float32)
    classNames := ["car", "dog"]
    model := { training := true, device := "cpu" }
    device := "cpu" }

/-- Witness for `detection_call_four_stages`: the length hypothesis holds for
`demoDetectionPipeline` on the input `[5, 2]` and the staging conclusion
follows by the theorem. -/
theorem detection_call_four_stages_witness :
    ((demoDetectionPipeline.postPredictionCallback
        (demoDetectionPipeline.spec.applyModel
          { training := false, gradEnabled := false,
            modelDevice := demoDetectionPipeline.device,
            inputsDevice := demoDetectionPipeline.device }
          ((demoDetectionPipeline.preprocStage
              (demoDetectionPipeline.loadStage [5, 2])).map Prod.fst))
        demoDetectionPipeline.device).length
      = (demoDetectionPipeline.loadStage [5, 2]).length) ∧
    (((demoDetectionPipeline.call [5, 2]).images = demoDetectionPipeline.loadStage [5, 2]) ∧
     ((demoDetectionPipeline.call [5, 2]).predictions
       = demoDetectionPipeline.postprocStage
           (demoDetectionPipeline.predictStage
             (demoDetectionPipeline.preprocStage (demoDetectionPipeline.loadStage [5, 2])))
           (demoDetectionPipeline.preprocStage (demoDetectionPipeline.loadStage [5, 2]))) ∧
     ((demoDetectionPipeline.call [5, 2]).predictions.length
       = (demoDetectionPipeline.loadStage [5, 2]).length) ∧
     ((demoDetectionPipeline.call [5, 2]).classNames = demoDetectionPipeline.classNames)) :=
  ⟨by decide, detection_call_four_stages demoDetectionPipeline [5, 2] (by decide)⟩

end SuperGradients
